import Mathlib

/-!
Verification development for the Teams push-request forwarding pipeline.

The Python source (persistence, duplicate checker, message detector chain,
message monitor) is shallowly embedded below: Python dicts become
association lists (preserving insertion order and in-place key update),
`datetime` timestamps become `Nat` values in a single common time
reference (the code normalizes both sides of every comparison to UTC),
exceptions become `Except` values handled at the call sites that catch
them, and the remote `messages.get()` oracle becomes an explicit
`Except Unit (Option (List _))` argument (error = the call raised;
`none` = response or its `value` field was absent).
-/

namespace TeamsAuto

/-! ## Association-list model of Python dicts -/

/-- Python dict assignment `d[k] = v`: update in place when the key is
present (keeping its position), otherwise append at the end
(insertion order). -/
def setAssoc {β : Type} : List (String × β) → String → β → List (String × β)
  | [], k, v => [(k, v)]
  | (k', v') :: rest, k, v =>
    if k' = k then (k, v) :: rest else (k', v') :: setAssoc rest k v

/-- Python dict lookup `d[k]` / `d.get(k)`. -/
def lookupAssoc {β : Type} : List (String × β) → String → Option β
  | [], _ => none
  | (k', v') :: rest, k => if k' = k then some v' else lookupAssoc rest k

/-- Python `k in d` on a dict. -/
def containsKeyAssoc {β : Type} (l : List (String × β)) (k : String) : Bool :=
  l.any (fun p => p.1 = k)

/-! ## File-backed state: load/save model

The backing file either does not exist, exists but its bytes do not
decode as UTF-8 (reading it raises `UnicodeDecodeError`, a sibling of
`json.JSONDecodeError` under `ValueError` that the `except` clause does
not catch), exists and decodes but fails JSON parsing
(`json.JSONDecodeError`, caught), or holds a well-formed serialized
store. `json.dump`/`json.load` round-trips the data, so a good file is
modeled as carrying the data it stores. -/

inductive FileState (α : Type) where
  | missing
  | undecodable
  | corrupt
  | good (data : α)
deriving DecidableEq, Repr

/-! ## PollStatePersistence (src/persistence.py)

`data["chats"]` maps a chat id to `{"last_poll_time": iso}`; the inner
object is carried as the timestamp itself (ISO-8601 round-trips through
`datetime.fromisoformat`/`isoformat`). -/

/-- Poll-state store contents: chat id ↦ last poll time. -/
def PollData : Type := List (String × Nat)

instance : DecidableEq PollData := by
  unfold PollData
  infer_instance

namespace PollStatePersistence

/-- `_load`: a missing file or a `json.JSONDecodeError` yields the
empty state `{"chats": {}}`; a file that is not UTF-8-decodable raises
`UnicodeDecodeError` out of the constructor (`.error`, the only
exception class caught is `json.JSONDecodeError`); a good file yields
the parsed contents. -/
def load : FileState PollData → Except Unit PollData
  | .missing => .ok []
  | .undecodable => .error ()
  | .corrupt => .ok []
  | .good d => .ok d

/-- `_save`: write the full current state to the file. -/
def save (d : PollData) : FileState PollData :=
  .good d

/-- `get_last_poll_time`. -/
def get_last_poll_time (d : PollData) (chat_id : String) : Option Nat :=
  lookupAssoc d chat_id

/-- `update_last_poll_time` (the in-memory mutation; `_save` follows). -/
def update_last_poll_time (d : PollData) (chat_id : String) (time : Nat) : PollData :=
  setAssoc d chat_id time

end PollStatePersistence

/-! ## ForwardedHistoryPersistence (src/persistence.py) -/

/-- Value stored per forwarded message id. -/
structure ForwardedRecord where
  job_id : Option String
  forwarded_message_id : String
  forwarded_at : String
deriving DecidableEq, Repr

/-- Store contents: the `forwarded_messages` dict and the
`forwarded_job_ids` list. -/
structure ForwardedData where
  forwarded_messages : List (String × ForwardedRecord)
  forwarded_job_ids : List String
deriving DecidableEq, Repr

/-- Empty store `{"forwarded_messages": {}, "forwarded_job_ids": []}`. -/
def emptyForwardedData : ForwardedData :=
  { forwarded_messages := [], forwarded_job_ids := [] }

namespace ForwardedHistoryPersistence

/-- `_load`: a missing file or a `json.JSONDecodeError` yields the
empty history; a file that is not UTF-8-decodable raises
`UnicodeDecodeError` out of the constructor (`.error`, the only
exception class caught is `json.JSONDecodeError`); a good file yields
the parsed contents. -/
def load : FileState ForwardedData → Except Unit ForwardedData
  | .missing => .ok emptyForwardedData
  | .undecodable => .error ()
  | .corrupt => .ok emptyForwardedData
  | .good d => .ok d

/-- `_save`: write the full current history to the file. -/
def save (d : ForwardedData) : FileState ForwardedData :=
  .good d

/-- `is_forwarded`: `message_id in self.data["forwarded_messages"]`. -/
def is_forwarded (d : ForwardedData) (message_id : String) : Bool :=
  containsKeyAssoc d.forwarded_messages message_id

/-- `is_job_id_forwarded`: case-insensitive membership in the job-id list. -/
def is_job_id_forwarded (d : ForwardedData) (job_id : String) : Bool :=
  (d.forwarded_job_ids.map String.toLower).contains job_id.toLower

/-- `mark_forwarded`: store the record under `message_id`; when `job_id`
is truthy (present and non-empty) and not already listed, append it to
`forwarded_job_ids`. `now` is the `datetime.now().isoformat()` value. -/
def mark_forwarded (d : ForwardedData) (message_id : String)
    (job_id : Option String) (forwarded_message_id : String) (now : String) :
    ForwardedData :=
  { forwarded_messages :=
      setAssoc d.forwarded_messages message_id
        { job_id := job_id, forwarded_message_id := forwarded_message_id,
          forwarded_at := now },
    forwarded_job_ids :=
      match job_id with
      | some j =>
        if j ≠ "" && !(d.forwarded_job_ids.contains j) then
          d.forwarded_job_ids ++ [j]
        else
          d.forwarded_job_ids
      | none => d.forwarded_job_ids }

/-- `get_all_forwarded_job_ids` (`.copy()` of the list). -/
def get_all_forwarded_job_ids (d : ForwardedData) : List String :=
  d.forwarded_job_ids

end ForwardedHistoryPersistence

/-- One `mark_forwarded` call's arguments, for reasoning about sequences
of record operations. -/
structure MarkOp where
  message_id : String
  job_id : Option String
  forwarded_message_id : String
  forwarded_at : String
deriving DecidableEq, Repr

/-- Apply a sequence of `mark_forwarded` calls in order. -/
def applyMarks (d : ForwardedData) : List MarkOp → ForwardedData
  | [] => d
  | op :: rest =>
    applyMarks
      (ForwardedHistoryPersistence.mark_forwarded d op.message_id op.job_id
        op.forwarded_message_id op.forwarded_at) rest

/-! ## Message detector chain (src/message_detector.py)

Character classes follow Python's `re` on the ASCII range (the inputs in
the claims are ASCII): `\w` is alphanumeric or underscore, `\s` is the
six ASCII whitespace characters. -/

/-- `DetectionResult` dataclass; `confidence` (always the constant 1.0
in the regex detector and in every negative result) is carried as the
integer 1. -/
structure DetectionResult where
  is_push_request : Bool
  job_id : Option String := none
  has_attachment : Bool := false
  confidence : Nat := 1
deriving DecidableEq, Repr

/-- A compiled regex as its `search` behavior: `none` when the pattern
does not match the text; `some cap` when it matches, where `cap` is
`match.group(1)` if `match.groups()` is non-empty and `None` otherwise. -/
def CompiledPattern : Type := String → Option (Option String)

/-- Python truthiness of the `attachments: list` argument followed by
`len(attachments) > 0`: an absent or empty list gives `false`. -/
def hasAtt : Option (List Unit) → Bool
  | none => false
  | some l => decide (l.length > 0)

namespace RegexMessageDetector

/-- The `for pattern in self.patterns` loop: first pattern whose search
matches wins. -/
def firstMatch : List CompiledPattern → String → Option (Option String)
  | [], _ => none
  | p :: ps, s =>
    match p s with
    | some cap => some cap
    | none => firstMatch ps s

/-- `RegexMessageDetector.detect`: empty or absent content is negative;
otherwise the first matching pattern yields a positive result carrying
its capture, the attachment flag, and confidence 1.0; no match is
negative. -/
def detect (patterns : List CompiledPattern) (message_content : Option String)
    (attachments : Option (List Unit)) : DetectionResult :=
  match message_content with
  | none => { is_push_request := false }
  | some s =>
    if s = "" then { is_push_request := false }
    else
      match firstMatch patterns s with
      | some cap =>
        { is_push_request := true, job_id := cap,
          has_attachment := hasAtt attachments, confidence := 1 }
      | none => { is_push_request := false }

end RegexMessageDetector

/-! ### The concrete pattern `push\s+([\w-]+)` compiled

`re.search` scans for the leftmost position where the pattern matches.
After the literal `push`, `\s+` and the capturing `[\w-]+` are greedy;
since `\s` and `[\w-]` are disjoint and nothing follows the group, the
greedy maximal-run match is exact. -/

/-- ASCII `\w`: letters, digits, underscore. -/
def isWordChar (c : Char) : Bool :=
  c.isAlphanum || c = '_'

/-- ASCII `\s`: space, tab, newline, carriage return, form feed,
vertical tab. -/
def isSpaceChar (c : Char) : Bool :=
  c = ' ' || c = '\t' || c = '\n' || c = '\r' || c = '\x0b' || c = '\x0c'

/-- `[\w-]`: word character or dash. -/
def isWordDash (c : Char) : Bool :=
  isWordChar c || c = '-'

/-- Try `push\s+([\w-]+)` anchored at the head of the character list;
return the captured group on success. -/
def matchPushAt : List Char → Option String
  | 'p' :: 'u' :: 's' :: 'h' :: rest =>
    let ws := rest.takeWhile isSpaceChar
    if ws.isEmpty then none
    else
      let rest2 := rest.drop ws.length
      let cap := rest2.takeWhile isWordDash
      if cap.isEmpty then none else some (String.mk cap)
  | _ => none

/-- `re.search` for `push\s+([\w-]+)`: first position (left to right)
where the anchored match succeeds. -/
def searchPush : List Char → Option String
  | [] => none
  | c :: cs =>
    match matchPushAt (c :: cs) with
    | some cap => some cap
    | none => searchPush cs

/-- The compiled form of `push\s+([\w-]+)`: the pattern has one group,
which always participates in a match, so `match.groups()` is non-empty
and `job_id` is the captured text. -/
def compiledPushPattern : CompiledPattern :=
  fun s => (searchPush s.data).map some

/-! ### KeywordPreFilterDetector -/

/-- Word boundary on the left of a word character: start of string or a
non-word character before. -/
def boundaryBefore : Option Char → Bool
  | none => true
  | some c => !isWordChar c

/-- Word boundary on the right of a word character: end of string or a
non-word character next. -/
def boundaryAfter : List Char → Bool
  | [] => true
  | c :: _ => !isWordChar c

/-- Case-insensitive literal match: strip `pat` (given lowercase) from
the head of the text, comparing both sides lowercased. -/
def stripCI : List Char → List Char → Option (List Char)
  | [], rest => some rest
  | _ :: _, [] => none
  | p :: ps, c :: cs => if c.toLower = p.toLower then stripCI ps cs else none

/-- After the literal `push`, the regex `(?:ed|ing|es)?\b` of
`_PUSH_RE`: one of the suffixes (case-insensitively) or nothing,
followed by a word boundary. For a boolean search this is the
disjunction of the four alternatives. -/
def pushSuffixOk (rest : List Char) : Bool :=
  (match stripCI ['e', 'd'] rest with
   | some r => boundaryAfter r
   | none => false) ||
  (match stripCI ['i', 'n', 'g'] rest with
   | some r => boundaryAfter r
   | none => false) ||
  (match stripCI ['e', 's'] rest with
   | some r => boundaryAfter r
   | none => false) ||
  boundaryAfter rest

/-- Search for `_PUSH_RE = \bpush(?:ed|ing|es)?\b` (IGNORECASE): `prev`
is the character before the current position. -/
def pushSearch : Option Char → List Char → Bool
  | _, [] => false
  | prev, c :: cs =>
    (boundaryBefore prev &&
      (match stripCI ['p', 'u', 's', 'h'] (c :: cs) with
       | some r => pushSuffixOk r
       | none => false)) ||
    pushSearch (some c) cs

/-- Search for `_IT_RE = (?<![a-z])(?<![A-Z])\bIT\b(?![a-z])(?![A-Z])`.
Since `I` and `T` are word characters, the look-behinds and look-aheads
are subsumed by the word boundaries: the neighbor must not be a word
character at all. The literal `IT` is matched case-sensitively
(uppercase only). -/
def itSearch : Option Char → List Char → Bool
  | _, [] => false
  | prev, c :: cs =>
    (c = 'I' &&
      (match cs with
       | 'T' :: r => boundaryBefore prev && boundaryAfter r
       | _ => false)) ||
    itSearch (some c) cs

namespace KeywordPreFilterDetector

/-- `_matches_keywords`: push-inflection rule OR standalone-uppercase-IT
rule. -/
def matchesKeywords (content : String) : Bool :=
  pushSearch none content.data || itSearch none content.data

/-- `KeywordPreFilterDetector.detect`. The inner detector is an abstract
function; the second component of the result records whether it was
invoked. -/
def detect (inner : Option String → Option (List Unit) → DetectionResult)
    (message_content : Option String) (attachments : Option (List Unit)) :
    DetectionResult × Bool :=
  match message_content with
  | none => ({ is_push_request := false }, false)
  | some s =>
    if s = "" then ({ is_push_request := false }, false)
    else if matchesKeywords s then (inner (some s) attachments, true)
    else ({ is_push_request := false }, false)

end KeywordPreFilterDetector

/-! ## Duplicate checker (src/duplicate_checker.py)

Each remote check performs one `messages.get()` call on the target
conversation; its outcome is passed in as an
`Except Unit (Option (List TargetMsg))` oracle: `.error` means the call
raised (caught by the surrounding `except`), `.ok none` means the
response or its `value` was absent, `.ok (some msgs)` the fetched list. -/

/-- Parse outcome of a `forwardedMessageReference` attachment's JSON
content: parsing may fail (`json.JSONDecodeError`, skipped), or yield an
object with an optional `originalMessageId` field. -/
inductive AttContent where
  | parseFail
  | obj (originalMessageId : Option String)
deriving DecidableEq, Repr

/-- An attachment of a message in the target chat; `content` is `none`
when `att.content` is falsy (absent or empty, in which case the code
uses `{}`). -/
structure TargetAttachment where
  content_type : String
  content : Option AttContent
deriving DecidableEq, Repr

/-- A message in the target chat, as the duplicate checker reads it:
its attachments (an absent attachment list is the empty list, both are
falsy) and its body content (`none` when `msg.body` or
`msg.body.content` is absent). -/
structure TargetMsg where
  attachments : List TargetAttachment
  bodyContent : Option String
deriving DecidableEq, Repr

/-- Result of one `messages.get()` call on the target conversation. -/
def FetchResult : Type := Except Unit (Option (List TargetMsg))

/-- Whether one attachment marks a forward of `original_message_id`:
content type `forwardedMessageReference` and parsed
`originalMessageId` equal to it (a failed parse or missing field never
matches). -/
def attMarksForward (original_message_id : String) (a : TargetAttachment) : Bool :=
  a.content_type = "forwardedMessageReference" &&
  (match a.content with
   | none => false
   | some .parseFail => false
   | some (.obj omid) =>
     match omid with
     | some x => x = original_message_id
     | none => false)

/-- Python `needle in haystack` on lists of characters. -/
def startsWithList : List Char → List Char → Bool
  | [], _ => true
  | _ :: _, [] => false
  | a :: as, b :: bs => a = b && startsWithList as bs

/-- Substring containment, Python's `in` on strings. -/
def containsList (needle : List Char) : List Char → Bool
  | [] => startsWithList needle []
  | c :: cs => startsWithList needle (c :: cs) || containsList needle cs

namespace DuplicateChecker

/-- `_check_forwarded_in_target`: scan every fetched message's
attachments for a forward reference to `original_message_id`; any raise
is caught and yields `false`. -/
def checkForwardedInTarget (fetch : FetchResult) (original_message_id : String) : Bool :=
  match fetch with
  | .error _ => false
  | .ok none => false
  | .ok (some msgs) =>
    msgs.any fun m => m.attachments.any (attMarksForward original_message_id)

/-- `_check_job_id_mentioned`: case-insensitive substring search of
`job_id` in each fetched message body (skipping absent or empty
bodies); any raise is caught and yields `false`. `.lower()` is applied
character by character on the underlying character lists. -/
def checkJobIdMentioned (fetch : FetchResult) (job_id : String) : Bool :=
  match fetch with
  | .error _ => false
  | .ok none => false
  | .ok (some msgs) =>
    msgs.any fun m =>
      match m.bodyContent with
      | some c =>
        c ≠ "" && containsList (job_id.data.map Char.toLower) (c.data.map Char.toLower)
      | none => false

/-- `is_duplicate`: local record check, then forwarded-reference check,
then (when `job_id` is truthy: present and non-empty) job-mention
check, short-circuiting on the first `true`. `fetchFwd` and `fetchJob`
are the oracles for the two `messages.get()` calls; the second
component counts how many of those remote calls the execution performs
(a call that raises still counts as performed). -/
def is_duplicate (persistence : ForwardedData) (fetchFwd fetchJob : FetchResult)
    (message_id : String) (job_id : Option String) : Bool × Nat :=
  if ForwardedHistoryPersistence.is_forwarded persistence message_id then
    (true, 0)
  else if checkForwardedInTarget fetchFwd message_id then
    (true, 1)
  else
    match job_id with
    | some j =>
      if j ≠ "" then
        if checkJobIdMentioned fetchJob j then (true, 2) else (false, 2)
      else (false, 1)
    | none => (false, 1)

end DuplicateChecker

/-! ## Message monitor (src/message_monitor.py and src/chat_fetcher.py) -/

/-- `ChatType` enum. -/
inductive ChatType where
  | oneOnOne
  | group
  | meeting
deriving DecidableEq, Repr

/-- `ChatInfo` dataclass. -/
structure ChatInfo where
  chat_id : String
  chat_type : ChatType
  topic : Option String := none
deriving DecidableEq, Repr

/-- A message as the monitor reads it: body content (`none` when
`msg.body` or `msg.body.content` is absent), the author's display name
(`none` when the `from_.user.display_name` chain is broken), the
creation timestamp, and the display names targeted by its mentions
(`none` for a mention whose `mentioned.user` chain is broken or whose
display name is absent). -/
structure MonitorMsg where
  bodyContent : Option String
  authorDisplayName : Option String
  created_date_time : Option Nat
  mentions : List (Option String)
deriving DecidableEq, Repr

/-- Result of the `messages.get()` call on a monitored chat. -/
def MonitorFetch : Type := Except Unit (Option (List MonitorMsg))

namespace MessageMonitor

/-- Skip condition `not msg.body or not msg.body.content`, negated:
the message has a non-empty body. -/
def hasContent (m : MonitorMsg) : Bool :=
  match m.bodyContent with
  | some s => s ≠ ""
  | none => false

/-- `_is_from_self`: the author's display name exists, is truthy, and
equals the monitored identity's display name. -/
def is_from_self (my_display_name : String) (m : MonitorMsg) : Bool :=
  match m.authorDisplayName with
  | some d => d ≠ "" && d = my_display_name
  | none => false

/-- `_is_mentioned`: some mention's display name equals the monitored
identity's display name. -/
def is_mentioned (my_display_name : String) (m : MonitorMsg) : Bool :=
  m.mentions.any (fun n => n = some my_display_name)

/-- The already-seen cursor skip: applied only when both the stored
cursor and the message's creation time are present, and the message is
not strictly newer (both sides normalized to the common reference). -/
def cursorSkips (last_poll_time : Option Nat) (m : MonitorMsg) : Bool :=
  match last_poll_time, m.created_date_time with
  | some lp, some mt => mt ≤ lp
  | _, _ => false

/-- The chat-type inclusion rule: one-on-one chats keep every message,
group chats keep only messages mentioning the monitored identity,
meeting chats keep nothing. -/
def typeIncludes (my_display_name : String) (chat : ChatInfo) (m : MonitorMsg) : Bool :=
  match chat.chat_type with
  | .oneOnOne => true
  | .group => is_mentioned my_display_name m
  | .meeting => false

/-- The whole loop body as a predicate: a fetched message ends up in
`new_messages` iff it passes the body, self-author, cursor, and
chat-type filters. -/
def keepMsg (my_display_name : String) (last_poll_time : Option Nat)
    (chat : ChatInfo) (m : MonitorMsg) : Bool :=
  hasContent m &&
  !(is_from_self my_display_name m) &&
  !(cursorSkips last_poll_time m) &&
  typeIncludes my_display_name chat m

/-- `get_new_messages`: read the stored cursor, fetch the chat's
messages (`now` is the wall-clock value `datetime.now(timezone.utc)`
taken at the update point), filter, then advance the cursor. A raised
fetch returns the empty list leaving the store untouched; an absent or
empty response returns early, also leaving the store untouched. -/
def get_new_messages (my_display_name : String) (st : PollData) (chat : ChatInfo)
    (fetch : MonitorFetch) (now : Nat) : List (String × MonitorMsg) × PollData :=
  let last_poll_time := PollStatePersistence.get_last_poll_time st chat.chat_id
  match fetch with
  | .error _ => ([], st)
  | .ok none => ([], st)
  | .ok (some msgs) =>
    if msgs.isEmpty then ([], st)
    else
      ((msgs.filter (keepMsg my_display_name last_poll_time chat)).map
        (fun m => (chat.chat_id, m)),
       PollStatePersistence.update_last_poll_time st chat.chat_id now)

end MessageMonitor

/-! ## Helper lemmas on the association-list dict model -/

theorem containsKey_setAssoc_iff {β : Type} (l : List (String × β)) (k m : String) (v : β) :
    containsKeyAssoc (setAssoc l k v) m = true ↔
      (containsKeyAssoc l m = true ∨ k = m) := by
  induction l with
  | nil => simp [setAssoc, containsKeyAssoc, eq_comm]
  | cons p rest ih =>
    obtain ⟨k', v'⟩ := p
    by_cases h : k' = k
    · subst h
      simp [setAssoc, containsKeyAssoc]
      tauto
    · simp [setAssoc, containsKeyAssoc, h] at ih ⊢
      tauto

theorem lookupAssoc_setAssoc_self {β : Type} (l : List (String × β)) (k : String) (v : β) :
    lookupAssoc (setAssoc l k v) k = some v := by
  induction l with
  | nil => simp [setAssoc, lookupAssoc]
  | cons p rest ih =>
    obtain ⟨k', v'⟩ := p
    by_cases h : k' = k
    · subst h
      simp [setAssoc, lookupAssoc]
    · simp [setAssoc, h, lookupAssoc, ih]

theorem setAssoc_append_of_fresh {β : Type} (l : List (String × β)) (k : String) (v : β)
    (h : containsKeyAssoc l k = false) :
    setAssoc l k v = l ++ [(k, v)] := by
  induction l with
  | nil => simp [setAssoc]
  | cons p rest ih =>
    obtain ⟨k', v'⟩ := p
    simp only [containsKeyAssoc, List.any_cons, Bool.or_eq_false_iff,
      decide_eq_false_iff_not] at h
    simp only [setAssoc, if_neg h.1, List.cons_append, List.cons.injEq, true_and]
    exact ih h.2

theorem is_forwarded_mark (d : ForwardedData) (mid mid' : String) (jid : Option String)
    (f t : String) (h : ForwardedHistoryPersistence.is_forwarded d mid = true) :
    ForwardedHistoryPersistence.is_forwarded
      (ForwardedHistoryPersistence.mark_forwarded d mid' jid f t) mid = true :=
  (containsKey_setAssoc_iff _ _ _ _).mpr (Or.inl h)

theorem is_forwarded_mark_self (d : ForwardedData) (mid : String) (jid : Option String)
    (f t : String) :
    ForwardedHistoryPersistence.is_forwarded
      (ForwardedHistoryPersistence.mark_forwarded d mid jid f t) mid = true :=
  (containsKey_setAssoc_iff _ _ _ _).mpr (Or.inr rfl)

theorem is_forwarded_applyMarks (ops : List MarkOp) (d : ForwardedData) (mid : String)
    (h : ForwardedHistoryPersistence.is_forwarded d mid = true) :
    ForwardedHistoryPersistence.is_forwarded (applyMarks d ops) mid = true := by
  induction ops generalizing d with
  | nil => exact h
  | cons op rest ih =>
    exact ih _ (is_forwarded_mark d mid op.message_id op.job_id
      op.forwarded_message_id op.forwarded_at h)

/-! ## Claim theorems -/

/-- C7 counterexample: a backing file whose bytes are not
UTF-8-decodable makes both constructors raise (`json.load` raises
`UnicodeDecodeError`, and the `except json.JSONDecodeError` clause does
not catch it), so construction can fail due to the file's contents and
the store does not start from empty state there. -/
theorem c7_counterexample :
    PollStatePersistence.load .undecodable = .error () ∧
    PollStatePersistence.load .undecodable ≠ .ok ([] : PollData) ∧
    ForwardedHistoryPersistence.load .undecodable = .error () ∧
    ForwardedHistoryPersistence.load .undecodable ≠ .ok emptyForwardedData := by
  refine ⟨rfl, ?_, rfl, ?_⟩ <;> intro h <;> cases h

/-- C7 amended: both stores load their state from the backing file at
construction; a missing file, or one that decodes as UTF-8 but fails
JSON parsing, yields the empty state; a good file yields its contents;
but a file that is not UTF-8-decodable raises out of construction. -/
theorem c7_load_on_construct :
    (PollStatePersistence.load .missing = .ok ([] : PollData) ∧
     PollStatePersistence.load .corrupt = .ok ([] : PollData) ∧
     (∀ d : PollData, PollStatePersistence.load (.good d) = .ok d) ∧
     PollStatePersistence.load .undecodable = .error ()) ∧
    (ForwardedHistoryPersistence.load .missing = .ok emptyForwardedData ∧
     ForwardedHistoryPersistence.load .corrupt = .ok emptyForwardedData ∧
     (∀ d : ForwardedData, ForwardedHistoryPersistence.load (.good d) = .ok d) ∧
     ForwardedHistoryPersistence.load .undecodable = .error ()) :=
  ⟨⟨rfl, rfl, fun _ => rfl, rfl⟩, ⟨rfl, rfl, fun _ => rfl, rfl⟩⟩

/-- C2: once `mark_forwarded` records a message id, `is_forwarded` is
true on the resulting store and stays true after any further sequence
of record operations; loading the file that the write-through persisted
reconstructs exactly that store, so a fresh instance built from it
answers true as well. -/
theorem c2_record_then_contains (d : ForwardedData) (message_id : String)
    (job_id : Option String) (fid now : String) (ops : List MarkOp) :
    ForwardedHistoryPersistence.is_forwarded
      (ForwardedHistoryPersistence.mark_forwarded d message_id job_id fid now)
      message_id = true ∧
    ForwardedHistoryPersistence.is_forwarded
      (applyMarks
        (ForwardedHistoryPersistence.mark_forwarded d message_id job_id fid now) ops)
      message_id = true ∧
    ForwardedHistoryPersistence.load
      (ForwardedHistoryPersistence.save
        (applyMarks
          (ForwardedHistoryPersistence.mark_forwarded d message_id job_id fid now)
          ops)) =
      .ok (applyMarks
        (ForwardedHistoryPersistence.mark_forwarded d message_id job_id fid now)
        ops) := by
  have h1 := is_forwarded_mark_self d message_id job_id fid now
  have h2 := is_forwarded_applyMarks ops _ message_id h1
  exact ⟨h1, h2, rfl⟩

/-- C1: `is_duplicate` evaluates the local-record check, the
forwarded-reference check, and (only for a truthy job id) the
job-mention check in strict order, short-circuiting on the first true;
a hit in the local store returns true with zero remote calls
performed. -/
theorem c1_is_duplicate_strict_order (p : ForwardedData) (fA fB : FetchResult)
    (mid : String) (jid : Option String) :
    (ForwardedHistoryPersistence.is_forwarded p mid = true →
      DuplicateChecker.is_duplicate p fA fB mid jid = (true, 0)) ∧
    (ForwardedHistoryPersistence.is_forwarded p mid = false →
      DuplicateChecker.checkForwardedInTarget fA mid = true →
      DuplicateChecker.is_duplicate p fA fB mid jid = (true, 1)) ∧
    (∀ j, jid = some j → j ≠ "" →
      ForwardedHistoryPersistence.is_forwarded p mid = false →
      DuplicateChecker.checkForwardedInTarget fA mid = false →
      DuplicateChecker.is_duplicate p fA fB mid jid =
        (DuplicateChecker.checkJobIdMentioned fB j, 2)) ∧
    ((jid = none ∨ jid = some "") →
      ForwardedHistoryPersistence.is_forwarded p mid = false →
      DuplicateChecker.checkForwardedInTarget fA mid = false →
      DuplicateChecker.is_duplicate p fA fB mid jid = (false, 1)) := by
  refine ⟨fun h1 => ?_, fun h1 h2 => ?_, fun j hj hne h1 h2 => ?_, fun hj h1 h2 => ?_⟩
  · simp [DuplicateChecker.is_duplicate, h1]
  · simp [DuplicateChecker.is_duplicate, h1, h2]
  · subst hj
    by_cases h3 : DuplicateChecker.checkJobIdMentioned fB j
    · simp [DuplicateChecker.is_duplicate, h1, h2, h3, hne]
    · simp [DuplicateChecker.is_duplicate, h1, h2, hne]
      simp [h3]
  · rcases hj with hj | hj <;> subst hj <;>
      simp [DuplicateChecker.is_duplicate, h1, h2]

/-- C1 witness: concrete store containing the message id; the checker
returns true at once with zero remote calls. -/
theorem c1_is_duplicate_strict_order_witness :
    DuplicateChecker.is_duplicate
      { emptyForwardedData with
        forwarded_messages :=
          [("m1", { job_id := some "j1", forwarded_message_id := "f1",
                    forwarded_at := "t1" })] }
      (.error ()) (.error ()) "m1" (some "j1") = (true, 0) :=
  (c1_is_duplicate_strict_order _ _ _ "m1" (some "j1")).1 (by decide)

/-- C6: a raised remote query is caught and treated as "not found" by
each remote check, so `is_duplicate` is total and its result degrades
to the checks that succeeded: with both remote calls raising it equals
the local check, and with only the first raising it equals the
job-mention check. -/
theorem c6_fail_open (p : ForwardedData) (mid j : String) (jid : Option String) :
    DuplicateChecker.checkForwardedInTarget (.error ()) mid = false ∧
    DuplicateChecker.checkJobIdMentioned (.error ()) j = false ∧
    (DuplicateChecker.is_duplicate p (.error ()) (.error ()) mid jid).1 =
      ForwardedHistoryPersistence.is_forwarded p mid ∧
    (∀ fB : FetchResult, ForwardedHistoryPersistence.is_forwarded p mid = false →
      jid = some j → j ≠ "" →
      (DuplicateChecker.is_duplicate p (.error ()) fB mid jid).1 =
        DuplicateChecker.checkJobIdMentioned fB j) := by
  refine ⟨rfl, rfl, ?_, fun fB h1 hj hne => ?_⟩
  · by_cases h1 : ForwardedHistoryPersistence.is_forwarded p mid
    · simp [DuplicateChecker.is_duplicate, h1]
    · simp only [Bool.not_eq_true] at h1
      rcases jid with _ | j'
      · simp [DuplicateChecker.is_duplicate, h1, DuplicateChecker.checkForwardedInTarget]
      · by_cases hj' : j' = "" <;>
          simp [DuplicateChecker.is_duplicate, h1, hj',
            DuplicateChecker.checkForwardedInTarget, DuplicateChecker.checkJobIdMentioned]
  · subst hj
    by_cases h3 : DuplicateChecker.checkJobIdMentioned fB j <;>
      simp [DuplicateChecker.is_duplicate, h1, hne,
        DuplicateChecker.checkForwardedInTarget, h3]

/-- C6 witness: with a raised forwarded-reference query and a target
conversation whose only message says "already pushed JOB-9", the
checker still reports the duplicate via the case-insensitive
job-mention check. -/
theorem c6_fail_open_witness :
    (DuplicateChecker.is_duplicate emptyForwardedData (.error ())
      (.ok (some [{ attachments := [], bodyContent := some "already pushed JOB-9" }]))
      "mNew" (some "job-9")).1 = true := by
  have h := (c6_fail_open emptyForwardedData "mNew" "job-9" (some "job-9")).2.2.2
    (.ok (some [{ attachments := [], bodyContent := some "already pushed JOB-9" }]))
    (by decide) rfl (by decide)
  rw [h]
  decide

theorem firstMatch_append (ps₁ ps₂ : List CompiledPattern) (pat : CompiledPattern)
    (s : String) (cap : Option String)
    (hmiss : ∀ p ∈ ps₁, p s = none) (hhit : pat s = some cap) :
    RegexMessageDetector.firstMatch (ps₁ ++ pat :: ps₂) s = some cap := by
  induction ps₁ with
  | nil => simp [RegexMessageDetector.firstMatch, hhit]
  | cons q qs ih =>
    have hq : q s = none := hmiss q (by simp)
    simp only [List.cons_append, RegexMessageDetector.firstMatch, hq]
    exact ih (fun p hp => hmiss p (by simp [hp]))

/-- C4: the pattern detector tries its compiled patterns in declaration
order, the first matching pattern wins, and the winning match's capture
becomes the job id (absent when the pattern captures nothing); with the
single pattern `push\s+([\w-]+)`, input "please push job-42" yields a
positive outcome with job id "job-42". -/
theorem c4_pattern_order_and_capture (ps₁ ps₂ : List CompiledPattern)
    (pat : CompiledPattern) (s : String) (cap : Option String)
    (atts : Option (List Unit)) (hs : s ≠ "")
    (hmiss : ∀ p ∈ ps₁, p s = none) (hhit : pat s = some cap) :
    RegexMessageDetector.detect (ps₁ ++ pat :: ps₂) (some s) atts =
      { is_push_request := true, job_id := cap,
        has_attachment := hasAtt atts, confidence := 1 } ∧
    RegexMessageDetector.detect [compiledPushPattern]
        (some "please push job-42") (some []) =
      { is_push_request := true, job_id := some "job-42",
        has_attachment := false, confidence := 1 } := by
  constructor
  · simp [RegexMessageDetector.detect, hs,
      firstMatch_append ps₁ ps₂ pat s cap hmiss hhit]
  · decide

/-- C4 witness: the scenario instance of the general statement. -/
theorem c4_pattern_order_and_capture_witness :
    RegexMessageDetector.detect ([] ++ compiledPushPattern :: [])
        (some "please push job-42") (some []) =
      { is_push_request := true, job_id := some "job-42",
        has_attachment := false, confidence := 1 } :=
  (c4_pattern_order_and_capture [] [] compiledPushPattern "please push job-42"
    (some "job-42") (some []) (by decide) (by simp) (by decide)).1

/-- C5: the keyword pre-filter returns a negative outcome without
invoking the wrapped detector when neither the push-inflection trigger
nor the uppercase-IT trigger fires, and otherwise returns the wrapped
detector's outcome unchanged; "I will bit the project" and "It is late"
do not trigger, "please push the job" does. -/
theorem c5_keyword_prefilter
    (inner : Option String → Option (List Unit) → DetectionResult)
    (s : String) (atts : Option (List Unit)) (hs : s ≠ "") :
    (KeywordPreFilterDetector.matchesKeywords s = false →
      KeywordPreFilterDetector.detect inner (some s) atts =
        ({ is_push_request := false }, false)) ∧
    (KeywordPreFilterDetector.matchesKeywords s = true →
      KeywordPreFilterDetector.detect inner (some s) atts =
        (inner (some s) atts, true)) ∧
    KeywordPreFilterDetector.matchesKeywords "I will bit the project" = false ∧
    KeywordPreFilterDetector.matchesKeywords "It is late" = false ∧
    KeywordPreFilterDetector.matchesKeywords "please push the job" = true := by
  refine ⟨fun h => ?_, fun h => ?_, by decide, by decide, by decide⟩
  · simp [KeywordPreFilterDetector.detect, hs, h]
  · simp [KeywordPreFilterDetector.detect, hs, h]

/-- C5 witness: a triggering and a non-triggering concrete input. -/
theorem c5_keyword_prefilter_witness :
    KeywordPreFilterDetector.detect
        (fun _ _ => { is_push_request := true }) (some "please push the job") none =
      ({ is_push_request := true }, true) ∧
    KeywordPreFilterDetector.detect
        (fun _ _ => { is_push_request := true }) (some "I will bit the project") none =
      ({ is_push_request := false }, false) :=
  ⟨(c5_keyword_prefilter (fun _ _ => { is_push_request := true })
      "please push the job" none (by decide)).2.1 (by decide),
   (c5_keyword_prefilter (fun _ _ => { is_push_request := true })
      "I will bit the project" none (by decide)).1 (by decide)⟩

/-- C9 counterexample: on a non-matching input with a non-empty
attachment list the outcome's `has_attachment` is false, so
`has_attachment` does not equal attachment-list non-emptiness on every
call. -/
theorem c9_counterexample :
    (RegexMessageDetector.detect [compiledPushPattern] (some "hello")
        (some [()])).has_attachment = false ∧
    ([()] : List Unit) ≠ [] := by
  exact ⟨by decide, by decide⟩

/-- C9 amended: on matching calls `has_attachment` equals the
truthiness of the attachment list (present and non-empty); on
non-matching calls the negative outcome carries `has_attachment =
false` regardless of the attachments. -/
theorem c9_has_attachment_amended (patterns : List CompiledPattern) (s : String)
    (atts : Option (List Unit)) (hs : s ≠ "") :
    (∀ cap, RegexMessageDetector.firstMatch patterns s = some cap →
      (RegexMessageDetector.detect patterns (some s) atts).has_attachment =
        hasAtt atts) ∧
    (RegexMessageDetector.firstMatch patterns s = none →
      (RegexMessageDetector.detect patterns (some s) atts).has_attachment = false) ∧
    (hasAtt atts = true ↔ ∃ l, atts = some l ∧ l ≠ []) := by
  refine ⟨fun cap h => ?_, fun h => ?_, ?_⟩
  · simp [RegexMessageDetector.detect, hs, h]
  · simp [RegexMessageDetector.detect, hs, h]
  · cases atts with
    | none => simp [hasAtt]
    | some l => cases l <;> simp [hasAtt]

/-- C9 amended witness: a matching call with a non-empty attachment
list reports the attachment. -/
theorem c9_has_attachment_amended_witness :
    (RegexMessageDetector.detect [compiledPushPattern]
        (some "please push job-42") (some [()])).has_attachment = true :=
  (c9_has_attachment_amended [compiledPushPattern] "please push job-42"
    (some [()]) (by decide)).1 (some "job-42") (by decide)

/-- C3: the stored poll cursor is updated only after a successful
fetch-and-filter pass (a raised fetch leaves the store untouched), a
successful pass writes the pass's wall-clock time, the new cursor is
never below the old one when the clock has not gone backwards, and a
second successful call on the same conversation reads a cursor at least
the value the first call wrote. -/
theorem c3_cursor_monotone (my_display_name : String) (st : PollData)
    (chat : ChatInfo) (now : Nat) (msgs : List MonitorMsg) :
    (MessageMonitor.get_new_messages my_display_name st chat (.error ()) now).2 = st ∧
    (msgs ≠ [] →
      PollStatePersistence.get_last_poll_time
        (MessageMonitor.get_new_messages my_display_name st chat
          (.ok (some msgs)) now).2 chat.chat_id = some now) ∧
    (∀ t0, PollStatePersistence.get_last_poll_time st chat.chat_id = some t0 →
      t0 ≤ now → msgs ≠ [] →
      ∀ t1, PollStatePersistence.get_last_poll_time
          (MessageMonitor.get_new_messages my_display_name st chat
            (.ok (some msgs)) now).2 chat.chat_id = some t1 →
        t0 ≤ t1) ∧
    (msgs ≠ [] →
      ∃ t, PollStatePersistence.get_last_poll_time
          (MessageMonitor.get_new_messages my_display_name st chat
            (.ok (some msgs)) now).2 chat.chat_id = some t ∧
        now ≤ t) := by
  have hwrite : msgs ≠ [] →
      PollStatePersistence.get_last_poll_time
        (MessageMonitor.get_new_messages my_display_name st chat
          (.ok (some msgs)) now).2 chat.chat_id = some now := by
    intro hne
    simp only [MessageMonitor.get_new_messages, List.isEmpty_eq_true, hne, if_false]
    exact lookupAssoc_setAssoc_self st chat.chat_id now
  refine ⟨rfl, hwrite, fun t0 h0 hle hne t1 h1 => ?_, fun hne => ⟨now, hwrite hne, le_refl now⟩⟩
  rw [hwrite hne] at h1
  injection h1 with h1
  omega

/-- C3 witness: a concrete one-message pass advances the cursor from 5
to 7 and a raised fetch leaves the store unchanged. -/
theorem c3_cursor_monotone_witness :
    (MessageMonitor.get_new_messages "me" [("c1", 5)]
      { chat_id := "c1", chat_type := .oneOnOne } (.error ()) 7).2 = [("c1", 5)] ∧
    (∀ t1, PollStatePersistence.get_last_poll_time
        (MessageMonitor.get_new_messages "me" [("c1", 5)]
          { chat_id := "c1", chat_type := .oneOnOne }
          (.ok (some [{ bodyContent := some "hi", authorDisplayName := some "bob",
                        created_date_time := some 6, mentions := [] }])) 7).2
        "c1" = some t1 → 5 ≤ t1) := by
  have h := c3_cursor_monotone "me" [("c1", 5)]
    { chat_id := "c1", chat_type := .oneOnOne } 7
    [{ bodyContent := some "hi", authorDisplayName := some "bob",
       created_date_time := some 6, mentions := [] }]
  exact ⟨h.1, fun t1 => h.2.2.1 5 (by decide) (by decide) (by decide) t1⟩

/-- C10: a fetched message whose creation timestamp is absent is never
excluded by the already-seen cursor check; it is included exactly when
it passes the non-empty-body, not-self-authored, and chat-type
filters. -/
theorem c10_timestampless_passes_cursor (my_display_name : String) (st : PollData)
    (chat : ChatInfo) (msgs : List MonitorMsg) (m : MonitorMsg) (now : Nat)
    (hm : m.created_date_time = none) (hne : msgs ≠ []) :
    MessageMonitor.cursorSkips
      (PollStatePersistence.get_last_poll_time st chat.chat_id) m = false ∧
    ((chat.chat_id, m) ∈
        (MessageMonitor.get_new_messages my_display_name st chat
          (.ok (some msgs)) now).1 ↔
      (m ∈ msgs ∧ MessageMonitor.hasContent m = true ∧
       MessageMonitor.is_from_self my_display_name m = false ∧
       MessageMonitor.typeIncludes my_display_name chat m = true)) := by
  have hskip : ∀ lp, MessageMonitor.cursorSkips lp m = false := by
    intro lp
    cases lp <;> simp [MessageMonitor.cursorSkips, hm]
  refine ⟨hskip _, ?_⟩
  simp only [MessageMonitor.get_new_messages, List.isEmpty_eq_true, hne, if_false,
    List.mem_map, List.mem_filter, Prod.mk.injEq, true_and, exists_eq_right,
    MessageMonitor.keepMsg, hskip, Bool.not_false, Bool.and_true,
    Bool.and_eq_true, Bool.not_eq_true', and_assoc]
  constructor
  · rintro ⟨a, hmem, h1, h2, h3, h4, rfl⟩
    exact ⟨hmem, h1, h2, h4⟩
  · rintro ⟨hmem, h1, h2, h4⟩
    exact ⟨m, hmem, h1, h2, hskip _, h4, rfl⟩

/-- C10 witness: a timestamp-less message in a one-on-one chat with a
stored cursor is included. -/
theorem c10_timestampless_passes_cursor_witness :
    (("c1", ({ bodyContent := some "hi", authorDisplayName := some "bob",
               created_date_time := none, mentions := [] } : MonitorMsg)) ∈
      (MessageMonitor.get_new_messages "me" [("c1", 100)]
        { chat_id := "c1", chat_type := .oneOnOne }
        (.ok (some [{ bodyContent := some "hi", authorDisplayName := some "bob",
                      created_date_time := none, mentions := [] }])) 101).1) :=
  (c10_timestampless_passes_cursor "me" [("c1", 100)]
    { chat_id := "c1", chat_type := .oneOnOne }
    [{ bodyContent := some "hi", authorDisplayName := some "bob",
       created_date_time := none, mentions := [] }]
    { bodyContent := some "hi", authorDisplayName := some "bob",
      created_date_time := none, mentions := [] }
    101 rfl (by decide)).2.mpr ⟨by decide, by decide, by decide, by decide⟩

/-- Some recorded message carries job id j. -/
def hasJobRecord (msgs : List (String × ForwardedRecord)) (j : String) : Prop :=
  ∃ p ∈ msgs, (Prod.snd p).job_id = some j

/-- The job-id index is consistent with the record set: it holds
exactly the non-empty job ids of recorded messages. -/
def jobIndexConsistent (d : ForwardedData) : Prop :=
  ∀ j : String, j ∈ d.forwarded_job_ids ↔
    (j ≠ "" ∧ hasJobRecord d.forwarded_messages j)

theorem hasJobRecord_append_single (msgs : List (String × ForwardedRecord))
    (mid : String) (rec : ForwardedRecord) (j : String) :
    hasJobRecord (msgs ++ [(mid, rec)]) j ↔
      (hasJobRecord msgs j ∨ rec.job_id = some j) := by
  unfold hasJobRecord
  constructor
  · rintro ⟨p, hmem, hr⟩
    rcases List.mem_append.mp hmem with h | h
    · exact Or.inl ⟨p, h, hr⟩
    · rw [List.mem_singleton] at h
      subst h
      exact Or.inr hr
  · rintro (⟨p, hmem, hr⟩ | hr)
    · exact ⟨p, List.mem_append_left _ hmem, hr⟩
    · exact ⟨(mid, rec), List.mem_append_right _ (List.mem_singleton.mpr rfl), hr⟩

theorem mark_preserves_consistent (d : ForwardedData) (mid : String)
    (jid : Option String) (f t : String)
    (hfresh : containsKeyAssoc d.forwarded_messages mid = false)
    (hinv : jobIndexConsistent d) :
    jobIndexConsistent
      (ForwardedHistoryPersistence.mark_forwarded d mid jid f t) := by
  intro j
  have hmsgs : (ForwardedHistoryPersistence.mark_forwarded d mid jid f t).forwarded_messages
      = d.forwarded_messages ++
        [(mid, { job_id := jid, forwarded_message_id := f, forwarded_at := t })] :=
    setAssoc_append_of_fresh _ _ _ hfresh
  rw [hmsgs, hasJobRecord_append_single]
  rcases jid with _ | jv
  · rw [show (ForwardedHistoryPersistence.mark_forwarded d mid none f t).forwarded_job_ids
        = d.forwarded_job_ids from rfl, hinv j]
    simp
  · rw [show (ForwardedHistoryPersistence.mark_forwarded d mid (some jv) f t).forwarded_job_ids
        = (if (jv ≠ "" && !(d.forwarded_job_ids.contains jv)) then
            d.forwarded_job_ids ++ [jv] else d.forwarded_job_ids) from rfl]
    by_cases hjv : jv = ""
    · subst hjv
      simp only [ne_eq, not_true_eq_false, decide_false_eq_false, Bool.false_and,
        Bool.false_eq_true, if_false]
      rw [hinv j]
      constructor
      · rintro ⟨hne, hj⟩
        exact ⟨hne, Or.inl hj⟩
      · rintro ⟨hne, hj | hj⟩
        · exact ⟨hne, hj⟩
        · exact absurd (Option.some.inj hj).symm hne
    · by_cases hc : jv ∈ d.forwarded_job_ids
      · rw [if_neg (by simp [List.elem_iff, hc])]
        rw [hinv j]
        constructor
        · rintro ⟨hne, hj⟩
          exact ⟨hne, Or.inl hj⟩
        · rintro ⟨hne, hj | hj⟩
          · exact ⟨hne, hj⟩
          · have hj' : j = jv := (Option.some.inj hj).symm
            subst hj'
            exact ⟨hne, ((hinv j).mp hc).2⟩
      · rw [if_pos (by simp [hjv, List.elem_iff, hc])]
        rw [List.mem_append, List.mem_singleton, hinv j]
        constructor
        · rintro (⟨hne, hj⟩ | rfl)
          · exact ⟨hne, Or.inl hj⟩
          · exact ⟨hjv, Or.inr rfl⟩
        · rintro ⟨hne, hj | hj⟩
          · exact Or.inl ⟨hne, hj⟩
          · exact Or.inr (Option.some.inj hj).symm

theorem applyMarks_fresh_consistent (ops : List MarkOp) (d : ForwardedData)
    (hinv : jobIndexConsistent d)
    (hfresh : ∀ op ∈ ops, containsKeyAssoc d.forwarded_messages op.message_id = false)
    (hnd : (ops.map MarkOp.message_id).Nodup) :
    jobIndexConsistent (applyMarks d ops) := by
  induction ops generalizing d with
  | nil => exact hinv
  | cons op rest ih =>
    rw [List.map_cons, List.nodup_cons] at hnd
    apply ih
    · exact mark_preserves_consistent d op.message_id op.job_id _ _
        (hfresh op (List.mem_cons_self _ _)) hinv
    · intro op' hop'
      have h1 : containsKeyAssoc d.forwarded_messages op'.message_id = false :=
        hfresh op' (List.mem_cons_of_mem _ hop')
      have h2 : op.message_id ≠ op'.message_id := by
        intro he
        exact hnd.1 (he ▸ List.mem_map_of_mem MarkOp.message_id hop')
      cases hck : containsKeyAssoc
          (ForwardedHistoryPersistence.mark_forwarded d op.message_id op.job_id
            op.forwarded_message_id op.forwarded_at).forwarded_messages
          op'.message_id
      · rfl
      · exfalso
        rcases (containsKey_setAssoc_iff _ _ _ _).mp hck with h | h
        · rw [h1] at h
          exact Bool.false_ne_true h
        · exact h2 h
    · exact hnd.2

/-- C8 counterexample: re-recording the same message id with an absent
job id leaves the overwritten job id "j1" in the index although no
recorded message carries it any more, and recording the non-null job id
"" stores a record whose job id never reaches the index — so the
claimed consistency fails for arbitrary record sequences. -/
theorem c8_counterexample :
    ("j1" ∈ (ForwardedHistoryPersistence.mark_forwarded
        (ForwardedHistoryPersistence.mark_forwarded emptyForwardedData
          "m1" (some "j1") "f1" "t1") "m1" none "f2" "t2").forwarded_job_ids ∧
      ∀ p ∈ (ForwardedHistoryPersistence.mark_forwarded
        (ForwardedHistoryPersistence.mark_forwarded emptyForwardedData
          "m1" (some "j1") "f1" "t1") "m1" none "f2" "t2").forwarded_messages,
        (Prod.snd p).job_id ≠ some "j1") ∧
    ((∃ p ∈ (ForwardedHistoryPersistence.mark_forwarded emptyForwardedData
        "m2" (some "") "f" "t").forwarded_messages,
        (Prod.snd p).job_id = some "") ∧
      "" ∉ (ForwardedHistoryPersistence.mark_forwarded emptyForwardedData
        "m2" (some "") "f" "t").forwarded_job_ids) := by
  decide

/-- C8 amended: recording with an absent job id leaves the job-id index
unchanged, and over any sequence of record operations on pairwise
distinct message ids starting from the empty store, the index holds
exactly the non-empty job ids of the recorded messages. -/
theorem c8_job_index_consistent (ops : List MarkOp)
    (hnd : (ops.map MarkOp.message_id).Nodup) :
    (∀ (d : ForwardedData) (mid f t : String),
      (ForwardedHistoryPersistence.mark_forwarded d mid none f t).forwarded_job_ids =
        d.forwarded_job_ids) ∧
    jobIndexConsistent (applyMarks emptyForwardedData ops) := by
  refine ⟨fun d mid f t => rfl, ?_⟩
  apply applyMarks_fresh_consistent ops emptyForwardedData ?_ ?_ hnd
  · intro j
    simp [jobIndexConsistent, emptyForwardedData, hasJobRecord]
  · intro op hop
    rfl

/-- C8 witness: a concrete no-job-id record leaves the index empty, and
a concrete single-record sequence satisfies the consistency
invariant. -/
theorem c8_job_index_consistent_witness :
    (ForwardedHistoryPersistence.mark_forwarded emptyForwardedData
      "mX" none "fX" "tX").forwarded_job_ids = emptyForwardedData.forwarded_job_ids ∧
    jobIndexConsistent (applyMarks emptyForwardedData
      [{ message_id := "m1", job_id := some "j1", forwarded_message_id := "f1",
         forwarded_at := "t1" }]) := by
  have h := c8_job_index_consistent
    [{ message_id := "m1", job_id := some "j1", forwarded_message_id := "f1",
       forwarded_at := "t1" }] (by decide)
  exact ⟨h.1 emptyForwardedData "mX" "fX" "tX", h.2⟩

end TeamsAuto
